import Mathlib

/-!
Verification of the JACK backend bridge (backend_jack.cc): the wire codec
jack_to_midi_event / midi_event_to_jack, the constructor error behaviour, and the
application-facing queue operations.  Machine integers are modelled as Nat (bytes)
and Int (C int fields), with explicit reduction modulo 256 where a value is stored
into an unsigned char.
-/

namespace Mididings

/-- Event type tags (the MIDI_EVENT_* constants from midi_event.hh, as used by the
switch statements of backend_jack.cc). -/
inductive MidiEventType where
  | MIDI_EVENT_NOTEON
  | MIDI_EVENT_NOTEOFF
  | MIDI_EVENT_CTRL
  | MIDI_EVENT_PITCHBEND
  | MIDI_EVENT_PROGRAM
  | MIDI_EVENT_NONE
deriving DecidableEq

open MidiEventType

/-- The structured MIDI event.  All C fields are int.  The C union overlays the two
payload structs, so note.note and ctrl.param are the same storage, modelled as
`data1`, and note.velocity and ctrl.value are the same storage, modelled as
`data2`. -/
structure MidiEvent where
  type : MidiEventType
  port : Int
  channel : Int
  data1 : Int
  data2 : Int
deriving DecidableEq

/-- Conversion of a C int to unsigned char (reduction modulo 256), applied wherever
an int is stored into a byte of the jack buffer. -/
def toByte (x : Int) : Nat := (x % 256).toNat

/-- BackendJack::jack_to_midi_event (backend_jack.cc lines 121-162).  data0 data1
data2 are the raw bytes of the jack event buffer.  The switch default leaves the
payload of the event untouched (the C object is default constructed); it is
modelled as 0, and no claim depends on it. -/
def jack_to_midi_event (data0 data1 data2 : Nat) (port : Int) : MidiEvent :=
  let channel : Int := ((data0 &&& 0x0f : Nat) : Int)
  if data0 &&& 0xf0 = 0x90 then
    { type := MIDI_EVENT_NOTEON, port := port, channel := channel,
      data1 := (data1 : Int), data2 := (data2 : Int) }
  else if data0 &&& 0xf0 = 0x80 then
    { type := MIDI_EVENT_NOTEOFF, port := port, channel := channel,
      data1 := (data1 : Int), data2 := (data2 : Int) }
  else if data0 &&& 0xf0 = 0xb0 then
    { type := MIDI_EVENT_CTRL, port := port, channel := channel,
      data1 := (data1 : Int), data2 := (data2 : Int) }
  else if data0 &&& 0xf0 = 0xe0 then
    { type := MIDI_EVENT_PITCHBEND, port := port, channel := channel,
      data1 := 0, data2 := (((data2 <<< 7 ||| data1 : Nat)) : Int) - 8192 }
  else if data0 &&& 0xf0 = 0xc0 then
    { type := MIDI_EVENT_PROGRAM, port := port, channel := channel,
      data1 := 0, data2 := (data1 : Int) }
  else
    { type := MIDI_EVENT_NONE, port := port, channel := channel,
      data1 := 0, data2 := 0 }

/-- The outputs of BackendJack::midi_event_to_jack: the final contents of the 3-byte
buffer, the length, and the port. -/
structure EncodeResult where
  data0 : Nat
  data1 : Nat
  data2 : Nat
  len : Nat
  port : Int
deriving DecidableEq

/-- BackendJack::midi_event_to_jack (backend_jack.cc lines 165-204).  d0 d1 d2 are
the bytes of the caller supplied buffer before the call (the C buffer is an
uninitialized stack array; bytes the switch does not assign keep those values).
After the switch the code unconditionally executes data[0] |= ev.channel (an int
bitwise or, stored back into the unsigned char) and port = ev.port. -/
def midi_event_to_jack (ev : MidiEvent) (d0 d1 d2 : Nat) : EncodeResult :=
  let b :=
    match ev.type with
    | MIDI_EVENT_NOTEON => (0x90, toByte ev.data1, toByte ev.data2, 3)
    | MIDI_EVENT_NOTEOFF => (0x80, toByte ev.data1, toByte ev.data2, 3)
    | MIDI_EVENT_CTRL => (0xb0, toByte ev.data1, toByte ev.data2, 3)
    | MIDI_EVENT_PITCHBEND =>
        (0xe0, toByte ((ev.data2 + 8192).tmod 128), toByte ((ev.data2 + 8192).tdiv 128), 3)
    | MIDI_EVENT_PROGRAM => (0xc0, toByte ev.data2, d2, 2)
    | MIDI_EVENT_NONE => (d0, d1, d2, 0)
  { data0 := toByte (Int.lor (b.1 : Int) ev.channel),
    data1 := b.2.1, data2 := b.2.2.1, len := b.2.2.2, port := ev.port }

/-- The per-event write decision of the outbound drain loop in BackendJack::process
(backend_jack.cc lines 101-115): jack_midi_event_write is invoked with the encoded
port, the buffer and the length only when the length is nonzero.  d0 d1 d2 model the
uninitialized stack buffer of that loop iteration. -/
def processWrite (ev : MidiEvent) (d0 d1 d2 : Nat) : Option (Int × List Nat) :=
  let r := midi_event_to_jack ev d0 d1 d2
  if r.len ≠ 0 then some (r.port, List.take r.len [r.data0, r.data1, r.data2]) else none

/-- Modelled from the spec: the BoundedEventQueue of spec section 4.2 (the ringbuffer
class behind _in_rb and _out_rb is not among the sources).  `items` abstracts the
elements between the read and the write cursor, oldest first; `capacity` is the
fixed capacity. -/
structure BoundedEventQueue where
  capacity : Nat
  items : List MidiEvent
deriving DecidableEq

/-- Modelled from the spec: write appends when there is room and silently drops the
event when the queue is full. -/
def BoundedEventQueue.write (q : BoundedEventQueue) (ev : MidiEvent) : BoundedEventQueue :=
  if q.items.length < q.capacity then { q with items := q.items ++ [ev] } else q

/-- Modelled from the spec: read yields nothing when empty, else the oldest element
and the advanced queue. -/
def BoundedEventQueue.read (q : BoundedEventQueue) : Option (MidiEvent × BoundedEventQueue) :=
  match q.items with
  | [] => none
  | ev :: rest => some (ev, { q with items := rest })

/-- Modelled from the spec: the number of unread elements. -/
def BoundedEventQueue.read_space (q : BoundedEventQueue) : Nat := q.items.length

/-- Modelled from the spec: reset makes the cursors equal, discarding all buffered
elements. -/
def BoundedEventQueue.reset (q : BoundedEventQueue) : BoundedEventQueue :=
  { q with items := [] }

/-- Modelled from the spec: Config::MAX_JACK_EVENTS, the fixed queue capacity
constant from config.hh (not among the sources).  Its concrete value is irrelevant
to the claims. -/
def Config.MAX_JACK_EVENTS : Nat := 128

/-- The exception type thrown by the constructor, carrying the message. -/
structure BackendError where
  msg : String
deriving DecidableEq

/-- The bridge state: client handle, the two port handle arrays, both ring buffers,
and the abstract state of the wake signal _cond (handles are opaque, modelled as
Nat, nonzero standing for non-null). -/
structure BackendJack where
  _client : Nat
  _in_ports : List Nat
  _out_ports : List Nat
  _in_rb : BoundedEventQueue
  _out_rb : BoundedEventQueue
  _cond : Nat
deriving DecidableEq

/-- BackendJack::input_event (backend_jack.cc lines 207-215): while the inbound ring
buffer has no read space the thread blocks on the condition variable; absent a
producer it never returns, modelled as `none`.  Otherwise one event is dequeued and
returned. -/
def BackendJack.input_event (s : BackendJack) : Option (MidiEvent × BackendJack) :=
  match s._in_rb.read with
  | none => none
  | some (ev, q) => some (ev, { s with _in_rb := q })

/-- BackendJack::output_event (backend_jack.cc lines 218-221). -/
def BackendJack.output_event (s : BackendJack) (ev : MidiEvent) : BackendJack :=
  { s with _out_rb := s._out_rb.write ev }

/-- BackendJack::drop_input (backend_jack.cc lines 224-227): resets the inbound ring
buffer. -/
def BackendJack.drop_input (s : BackendJack) : BackendJack :=
  { s with _in_rb := s._in_rb.reset }

/-- BackendJack::flush_output (backend_jack.cc lines 230-232): the body is empty. -/
def BackendJack.flush_output (s : BackendJack) : BackendJack := s

/-- Outcomes of the external jack library calls made by the constructor: whether
jack_client_open returns non-null, whether the n-th jack_port_register call of the
input and of the output loop returns non-null, and whether jack_activate returns
0. -/
structure JackEnv where
  clientOpenOk : Bool
  inPortOk : Nat → Bool
  outPortOk : Nat → Bool
  activateOk : Bool

/-- One port registration loop of the constructor (backend_jack.cc lines 40-45 and
47-52): ports are registered in index order and the first registration returning
null throws BackendError msg; the value n+1 stands for the non-null handle of port
n. -/
def registerPorts (ok : Nat → Bool) (msg : String) :
    Nat → List String → Except BackendError (List Nat)
  | _, [] => Except.ok []
  | n, _ :: rest =>
    if ok n then
      match registerPorts ok msg (n + 1) rest with
      | Except.ok hs => Except.ok ((n + 1) :: hs)
      | Except.error e => Except.error e
    else Except.error { msg := msg }

/-- BackendJack::BackendJack (backend_jack.cc lines 22-57): opens the client,
registers the input ports and then the output ports, and activates; each failing
step throws the corresponding BackendError and stops construction. -/
def BackendJack.construct (env : JackEnv) (client_name : String)
    (in_portnames out_portnames : List String) : Except BackendError BackendJack :=
  if env.clientOpenOk then
    match registerPorts env.inPortOk "error creating input port" 0 in_portnames with
    | Except.error e => Except.error e
    | Except.ok inp =>
      match registerPorts env.outPortOk "error creating output port" 0 out_portnames with
      | Except.error e => Except.error e
      | Except.ok outp =>
        if env.activateOk then
          Except.ok { _client := 1, _in_ports := inp, _out_ports := outp,
                      _in_rb := { capacity := Config.MAX_JACK_EVENTS, items := [] },
                      _out_rb := { capacity := Config.MAX_JACK_EVENTS, items := [] },
                      _cond := 0 }
        else Except.error { msg := "can\x27t activate client" }
  else Except.error { msg := "can\x27t connect to jack server" }

/-- The documented per-variant payload ranges of spec section 3, stated on the union
storage: data1 is note/param (fixed 0 where the spec says the field is unused) and
data2 is velocity/value. -/
def payloadInRange : MidiEventType → Int → Int → Prop
  | MIDI_EVENT_NOTEON, d1, d2 => 0 ≤ d1 ∧ d1 ≤ 127 ∧ 0 ≤ d2 ∧ d2 ≤ 127
  | MIDI_EVENT_NOTEOFF, d1, d2 => 0 ≤ d1 ∧ d1 ≤ 127 ∧ 0 ≤ d2 ∧ d2 ≤ 127
  | MIDI_EVENT_CTRL, d1, d2 => 0 ≤ d1 ∧ d1 ≤ 127 ∧ 0 ≤ d2 ∧ d2 ≤ 127
  | MIDI_EVENT_PITCHBEND, d1, d2 => d1 = 0 ∧ -8192 ≤ d2 ∧ d2 ≤ 8191
  | MIDI_EVENT_PROGRAM, d1, d2 => d1 = 0 ∧ 0 ≤ d2 ∧ d2 ≤ 127
  | MIDI_EVENT_NONE, _, _ => True

instance (t : MidiEventType) (d1 d2 : Int) : Decidable (payloadInRange t d1 d2) :=
  match t with
  | MIDI_EVENT_NOTEON => inferInstanceAs (Decidable (0 ≤ d1 ∧ d1 ≤ 127 ∧ 0 ≤ d2 ∧ d2 ≤ 127))
  | MIDI_EVENT_NOTEOFF => inferInstanceAs (Decidable (0 ≤ d1 ∧ d1 ≤ 127 ∧ 0 ≤ d2 ∧ d2 ≤ 127))
  | MIDI_EVENT_CTRL => inferInstanceAs (Decidable (0 ≤ d1 ∧ d1 ≤ 127 ∧ 0 ≤ d2 ∧ d2 ≤ 127))
  | MIDI_EVENT_PITCHBEND => inferInstanceAs (Decidable (d1 = 0 ∧ -8192 ≤ d2 ∧ d2 ≤ 8191))
  | MIDI_EVENT_PROGRAM => inferInstanceAs (Decidable (d1 = 0 ∧ 0 ≤ d2 ∧ d2 ≤ 127))
  | MIDI_EVENT_NONE => inferInstanceAs (Decidable True)

/-- All fields of an event within the documented ranges of spec section 3: channel
0-15 and the per-variant payload ranges. -/
def fieldsInRange (ev : MidiEvent) : Prop :=
  0 ≤ ev.channel ∧ ev.channel ≤ 15 ∧ payloadInRange ev.type ev.data1 ev.data2

instance (ev : MidiEvent) : Decidable (fieldsInRange ev) :=
  inferInstanceAs (Decidable (0 ≤ ev.channel ∧ ev.channel ≤ 15 ∧
    payloadInRange ev.type ev.data1 ev.data2))

/-- The status base byte that the encoder switch writes into data[0] for each
representable type; none for the default (length 0) branch. -/
def baseStatus : MidiEventType → Option Nat
  | MIDI_EVENT_NOTEON => some 0x90
  | MIDI_EVENT_NOTEOFF => some 0x80
  | MIDI_EVENT_CTRL => some 0xb0
  | MIDI_EVENT_PITCHBEND => some 0xe0
  | MIDI_EVENT_PROGRAM => some 0xc0
  | MIDI_EVENT_NONE => none

/-! Arithmetic helper lemmas about bytes, bitwise or, and the int to unsigned char
conversion. -/

theorem toByte_natCast (k : Nat) : toByte (k : Int) = k % 256 := by
  unfold toByte
  omega

theorem toByte_eq_toNat {x : Int} (h0 : 0 ≤ x) (h : x < 256) : toByte x = x.toNat := by
  unfold toByte
  omega

theorem int_lor_natCast (a b : Nat) : Int.lor (a : Int) (b : Int) = ((a ||| b : Nat) : Int) := rfl

theorem or_lt_256 {b c : Nat} (hb : b < 256) (hc : c < 256) : b ||| c < 256 := by
  have e : (2 : Nat) ^ 8 = 256 := by norm_num
  have h1 : b < 2 ^ 8 := by rw [e]; exact hb
  have h2 : c < 2 ^ 8 := by rw [e]; exact hc
  have h3 := Nat.or_lt_two_pow h1 h2
  rw [e] at h3
  exact h3

theorem and15_eq_mod (x : Nat) : x &&& 15 = x % 16 := by
  have h := Nat.and_pow_two_sub_one_eq_mod x 4
  norm_num at h
  exact h

theorem and127_eq_mod (x : Nat) : x &&& 127 = x % 128 := by
  have h := Nat.and_pow_two_sub_one_eq_mod x 7
  norm_num at h
  exact h

theorem and240_of_lt {c : Nat} (hc : c < 16) : c &&& 240 = 0 := by
  have h1 : c &&& 15 = c := by rw [and15_eq_mod]; omega
  calc c &&& 240 = (c &&& 15) &&& 240 := by rw [h1]
    _ = c &&& (15 &&& 240) := Nat.and_assoc c 15 240
    _ = c &&& 0 := by rw [show (15 &&& 240 : Nat) = 0 from by decide]
    _ = 0 := Nat.and_zero c

/-- Composing a status base with a masked channel: bounds, high nibble and low
nibble of base ||| c. -/
theorem base_or_channel {b c : Nat} (hb : b < 256) (hb15 : b &&& 15 = 0)
    (hb240 : b &&& 240 = b) (hc : c < 16) :
    b ||| c < 256 ∧ (b ||| c) &&& 240 = b ∧ (b ||| c) &&& 15 = c := by
  refine ⟨or_lt_256 hb (by omega), ?_, ?_⟩
  · have hx := Nat.and_distrib_right b c 240
    rw [hb240, and240_of_lt hc, Nat.or_zero] at hx
    exact hx
  · have hx := Nat.and_distrib_right b c 15
    rw [hb15, Nat.zero_or] at hx
    rw [hx, and15_eq_mod, Nat.mod_eq_of_lt hc]

theorem toByte_lor_nat (b n : Nat) (hb : b < 256) (hn : n < 16) :
    toByte (Int.lor (b : Int) (n : Int)) = b ||| n := by
  rw [int_lor_natCast, toByte_natCast, Nat.mod_eq_of_lt (or_lt_256 hb (by omega))]

theorem or_shiftRight_seven (a b : Nat) : (a ||| b) >>> 7 = (a >>> 7) ||| (b >>> 7) :=
  Nat.eq_of_testBit_eq (fun i => by simp)

/-- Recombining the 7-bit digits: or of disjoint bit ranges is addition. -/
theorem mul128_or_eq {q r : Nat} (h : r < 128) : (q * 128) ||| r = q * 128 + r := by
  have h2 : (2 : Nat) ^ 7 = 128 := by norm_num
  have hdiv : (q * 128 ||| r) / 128 = q := by
    have hx := or_shiftRight_seven (q * 128) r
    simp only [Nat.shiftRight_eq_div_pow, h2] at hx
    have ha : q * 128 / 128 = q := by omega
    have hb : r / 128 = 0 := by omega
    rw [ha, hb, Nat.or_zero] at hx
    exact hx
  have hmod : (q * 128 ||| r) % 128 = r := by
    have hx := Nat.and_distrib_right (q * 128) r 127
    simp only [and127_eq_mod] at hx
    rw [Nat.mul_mod_left, Nat.mod_eq_of_lt h, Nat.zero_or] at hx
    exact hx
  have hdm := Nat.div_add_mod (q * 128 ||| r) 128
  omega

theorem shiftLeft7_or_eq {q r : Nat} (h : r < 128) : (q <<< 7) ||| r = q * 128 + r := by
  have hshift : q <<< 7 = q * 128 := by rw [Nat.shiftLeft_eq]
  rw [hshift]
  exact mul128_or_eq h

/-! Characterization of the encoder, one equation per event type. -/

theorem encode_noteon (p c x y : Int) (d0 d1 d2 : Nat) :
    midi_event_to_jack ⟨MIDI_EVENT_NOTEON, p, c, x, y⟩ d0 d1 d2 =
      { data0 := toByte (Int.lor ((0x90 : Nat) : Int) c), data1 := toByte x,
        data2 := toByte y, len := 3, port := p } := rfl

theorem encode_noteoff (p c x y : Int) (d0 d1 d2 : Nat) :
    midi_event_to_jack ⟨MIDI_EVENT_NOTEOFF, p, c, x, y⟩ d0 d1 d2 =
      { data0 := toByte (Int.lor ((0x80 : Nat) : Int) c), data1 := toByte x,
        data2 := toByte y, len := 3, port := p } := rfl

theorem encode_ctrl (p c x y : Int) (d0 d1 d2 : Nat) :
    midi_event_to_jack ⟨MIDI_EVENT_CTRL, p, c, x, y⟩ d0 d1 d2 =
      { data0 := toByte (Int.lor ((0xb0 : Nat) : Int) c), data1 := toByte x,
        data2 := toByte y, len := 3, port := p } := rfl

theorem encode_pitchbend (p c x y : Int) (d0 d1 d2 : Nat) :
    midi_event_to_jack ⟨MIDI_EVENT_PITCHBEND, p, c, x, y⟩ d0 d1 d2 =
      { data0 := toByte (Int.lor ((0xe0 : Nat) : Int) c),
        data1 := toByte ((y + 8192).tmod 128), data2 := toByte ((y + 8192).tdiv 128),
        len := 3, port := p } := rfl

theorem encode_program (p c x y : Int) (d0 d1 d2 : Nat) :
    midi_event_to_jack ⟨MIDI_EVENT_PROGRAM, p, c, x, y⟩ d0 d1 d2 =
      { data0 := toByte (Int.lor ((0xc0 : Nat) : Int) c), data1 := toByte y,
        data2 := d2, len := 2, port := p } := rfl

theorem encode_none (p c x y : Int) (d0 d1 d2 : Nat) :
    midi_event_to_jack ⟨MIDI_EVENT_NONE, p, c, x, y⟩ d0 d1 d2 =
      { data0 := toByte (Int.lor ((d0 : Nat) : Int) c), data1 := d1,
        data2 := d2, len := 0, port := p } := rfl

/-! Characterization of the decoder, one equation per recognized high nibble. -/

theorem decode_noteon (d0 d1 d2 : Nat) (p : Int) (h : d0 &&& 240 = 144) :
    jack_to_midi_event d0 d1 d2 p =
      ⟨MIDI_EVENT_NOTEON, p, ((d0 &&& 15 : Nat) : Int), (d1 : Int), (d2 : Int)⟩ := by
  simp only [jack_to_midi_event, h]
  norm_num

theorem decode_noteoff (d0 d1 d2 : Nat) (p : Int) (h : d0 &&& 240 = 128) :
    jack_to_midi_event d0 d1 d2 p =
      ⟨MIDI_EVENT_NOTEOFF, p, ((d0 &&& 15 : Nat) : Int), (d1 : Int), (d2 : Int)⟩ := by
  simp only [jack_to_midi_event, h]
  norm_num

theorem decode_ctrl (d0 d1 d2 : Nat) (p : Int) (h : d0 &&& 240 = 176) :
    jack_to_midi_event d0 d1 d2 p =
      ⟨MIDI_EVENT_CTRL, p, ((d0 &&& 15 : Nat) : Int), (d1 : Int), (d2 : Int)⟩ := by
  simp only [jack_to_midi_event, h]
  norm_num

theorem decode_pitchbend (d0 d1 d2 : Nat) (p : Int) (h : d0 &&& 240 = 224) :
    jack_to_midi_event d0 d1 d2 p =
      ⟨MIDI_EVENT_PITCHBEND, p, ((d0 &&& 15 : Nat) : Int), 0,
        (((d2 <<< 7 ||| d1 : Nat)) : Int) - 8192⟩ := by
  simp only [jack_to_midi_event, h]
  norm_num

theorem decode_program (d0 d1 d2 : Nat) (p : Int) (h : d0 &&& 240 = 192) :
    jack_to_midi_event d0 d1 d2 p =
      ⟨MIDI_EVENT_PROGRAM, p, ((d0 &&& 15 : Nat) : Int), 0, (d1 : Int)⟩ := by
  simp only [jack_to_midi_event, h]
  norm_num

theorem decode_none (d0 d1 d2 : Nat) (p : Int) (h1 : d0 &&& 240 ≠ 144)
    (h2 : d0 &&& 240 ≠ 128) (h3 : d0 &&& 240 ≠ 176) (h4 : d0 &&& 240 ≠ 224)
    (h5 : d0 &&& 240 ≠ 192) :
    jack_to_midi_event d0 d1 d2 p =
      ⟨MIDI_EVENT_NONE, p, ((d0 &&& 15 : Nat) : Int), 0, 0⟩ := by
  simp only [jack_to_midi_event]
  rw [if_neg h1, if_neg h2, if_neg h3, if_neg h4, if_neg h5]

theorem decode_channel (d0 d1 d2 : Nat) (p : Int) :
    (jack_to_midi_event d0 d1 d2 p).channel = ((d0 &&& 15 : Nat) : Int) := by
  unfold jack_to_midi_event
  repeat' split
  all_goals rfl

/-- Claim C1: for every representable MidiEvent variant (NoteOn, NoteOff, Control,
PitchBend, Program) with all fields within the documented ranges, decoding the bytes
produced by encoding the event, passing the encoded port as the decode port
argument, yields an event equal to the original. -/
theorem C1_roundtrip (ev : MidiEvent) (d0 d1 d2 : Nat)
    (hrep : ev.type ≠ MIDI_EVENT_NONE) (hr : fieldsInRange ev) :
    jack_to_midi_event (midi_event_to_jack ev d0 d1 d2).data0
      (midi_event_to_jack ev d0 d1 d2).data1 (midi_event_to_jack ev d0 d1 d2).data2
      (midi_event_to_jack ev d0 d1 d2).port = ev := by
  obtain ⟨t, p, c, x, y⟩ := ev
  simp only [fieldsInRange] at hr
  obtain ⟨hc0, hc15, hp⟩ := hr
  obtain ⟨n, rfl⟩ := Int.eq_ofNat_of_zero_le hc0
  have hn : n < 16 := by omega
  cases t with
  | MIDI_EVENT_NOTEON =>
    simp only [payloadInRange] at hp
    obtain ⟨hx0, hx127, hy0, hy127⟩ := hp
    have hb := base_or_channel (b := 144) (c := n) (by norm_num) (by decide) (by decide) hn
    rw [encode_noteon]
    dsimp only
    rw [toByte_lor_nat 144 n (by norm_num) hn,
        toByte_eq_toNat hx0 (by omega), toByte_eq_toNat hy0 (by omega),
        decode_noteon _ _ _ _ hb.2.1, hb.2.2,
        Int.toNat_of_nonneg hx0, Int.toNat_of_nonneg hy0]
  | MIDI_EVENT_NOTEOFF =>
    simp only [payloadInRange] at hp
    obtain ⟨hx0, hx127, hy0, hy127⟩ := hp
    have hb := base_or_channel (b := 128) (c := n) (by norm_num) (by decide) (by decide) hn
    rw [encode_noteoff]
    dsimp only
    rw [toByte_lor_nat 128 n (by norm_num) hn,
        toByte_eq_toNat hx0 (by omega), toByte_eq_toNat hy0 (by omega),
        decode_noteoff _ _ _ _ hb.2.1, hb.2.2,
        Int.toNat_of_nonneg hx0, Int.toNat_of_nonneg hy0]
  | MIDI_EVENT_CTRL =>
    simp only [payloadInRange] at hp
    obtain ⟨hx0, hx127, hy0, hy127⟩ := hp
    have hb := base_or_channel (b := 176) (c := n) (by norm_num) (by decide) (by decide) hn
    rw [encode_ctrl]
    dsimp only
    rw [toByte_lor_nat 176 n (by norm_num) hn,
        toByte_eq_toNat hx0 (by omega), toByte_eq_toNat hy0 (by omega),
        decode_ctrl _ _ _ _ hb.2.1, hb.2.2,
        Int.toNat_of_nonneg hx0, Int.toNat_of_nonneg hy0]
  | MIDI_EVENT_PITCHBEND =>
    simp only [payloadInRange] at hp
    obtain ⟨hx, hy1, hy2⟩ := hp
    subst hx
    have hb := base_or_channel (b := 224) (c := n) (by norm_num) (by decide) (by decide) hn
    obtain ⟨k, hk⟩ := Int.eq_ofNat_of_zero_le (show (0 : Int) ≤ y + 8192 by omega)
    have hk16 : k < 16384 := by omega
    rw [encode_pitchbend]
    dsimp only
    rw [toByte_lor_nat 224 n (by norm_num) hn, hk]
    rw [show ((k : Int)).tmod 128 = ((k % 128 : Nat) : Int) from rfl,
        show ((k : Int)).tdiv 128 = ((k / 128 : Nat) : Int) from rfl,
        toByte_natCast, toByte_natCast,
        Nat.mod_eq_of_lt (show k % 128 < 256 by omega),
        Nat.mod_eq_of_lt (show k / 128 < 256 by omega),
        decode_pitchbend _ _ _ _ hb.2.1, hb.2.2,
        shiftLeft7_or_eq (show k % 128 < 128 by omega),
        show k / 128 * 128 + k % 128 = k by omega,
        show ((k : Nat) : Int) - 8192 = y by omega]
  | MIDI_EVENT_PROGRAM =>
    simp only [payloadInRange] at hp
    obtain ⟨hx, hy0, hy127⟩ := hp
    subst hx
    have hb := base_or_channel (b := 192) (c := n) (by norm_num) (by decide) (by decide) hn
    rw [encode_program]
    dsimp only
    rw [toByte_lor_nat 192 n (by norm_num) hn,
        toByte_eq_toNat hy0 (by omega),
        decode_program _ _ _ _ hb.2.1, hb.2.2,
        Int.toNat_of_nonneg hy0]
  | MIDI_EVENT_NONE => exact absurd rfl hrep

theorem C1_roundtrip_witness :
    (⟨MIDI_EVENT_NOTEON, 3, 5, 60, 100⟩ : MidiEvent).type ≠ MIDI_EVENT_NONE
    ∧ fieldsInRange ⟨MIDI_EVENT_NOTEON, 3, 5, 60, 100⟩
    ∧ jack_to_midi_event
        (midi_event_to_jack ⟨MIDI_EVENT_NOTEON, 3, 5, 60, 100⟩ 9 9 9).data0
        (midi_event_to_jack ⟨MIDI_EVENT_NOTEON, 3, 5, 60, 100⟩ 9 9 9).data1
        (midi_event_to_jack ⟨MIDI_EVENT_NOTEON, 3, 5, 60, 100⟩ 9 9 9).data2
        (midi_event_to_jack ⟨MIDI_EVENT_NOTEON, 3, 5, 60, 100⟩ 9 9 9).port
      = ⟨MIDI_EVENT_NOTEON, 3, 5, 60, 100⟩ :=
  ⟨by decide, by decide,
   C1_roundtrip ⟨MIDI_EVENT_NOTEON, 3, 5, 60, 100⟩ 9 9 9 (by decide) (by decide)⟩

/-- Claim C2 counterexample: the raw wire input 0x90 200 0 (all bytes in 0-255)
decodes to a NoteOn whose note field is 200, outside the documented 0-127 range:
decode does not mask the data bytes. -/
theorem C2_counterexample : ¬ fieldsInRange (jack_to_midi_event 0x90 200 0 0) := by
  decide

/-- Claim C2 amended: for every raw wire input, decode masks the status byte, so the
resulting channel always lies in 0-15; the data-byte fields are copied without
masking, so every field lies within its documented range whenever the raw data
bytes are at most 127. -/
theorem C2_channel_masked (d0 d1 d2 : Nat) (p : Int) (h : d0 < 256) :
    (0 ≤ (jack_to_midi_event d0 d1 d2 p).channel
      ∧ (jack_to_midi_event d0 d1 d2 p).channel ≤ 15)
    ∧ (d1 ≤ 127 → d2 ≤ 127 → fieldsInRange (jack_to_midi_event d0 d1 d2 p)) := by
  have hch := decode_channel d0 d1 d2 p
  have h15 : d0 &&& 15 ≤ 15 := by rw [and15_eq_mod]; omega
  refine ⟨⟨by rw [hch]; exact Int.natCast_nonneg _, by rw [hch]; exact_mod_cast h15⟩, ?_⟩
  intro hd1 hd2
  have hc0 : (0 : Int) ≤ ((d0 &&& 15 : Nat) : Int) := Int.natCast_nonneg _
  have hc15 : ((d0 &&& 15 : Nat) : Int) ≤ 15 := by exact_mod_cast h15
  by_cases h1 : d0 &&& 240 = 144
  · rw [decode_noteon d0 d1 d2 p h1]
    dsimp only [fieldsInRange, payloadInRange]
    omega
  by_cases h2 : d0 &&& 240 = 128
  · rw [decode_noteoff d0 d1 d2 p h2]
    dsimp only [fieldsInRange, payloadInRange]
    omega
  by_cases h3 : d0 &&& 240 = 176
  · rw [decode_ctrl d0 d1 d2 p h3]
    dsimp only [fieldsInRange, payloadInRange]
    omega
  by_cases h4 : d0 &&& 240 = 224
  · rw [decode_pitchbend d0 d1 d2 p h4]
    dsimp only [fieldsInRange, payloadInRange]
    rw [shiftLeft7_or_eq (show d1 < 128 by omega)]
    omega
  by_cases h5 : d0 &&& 240 = 192
  · rw [decode_program d0 d1 d2 p h5]
    dsimp only [fieldsInRange, payloadInRange]
    omega
  · rw [decode_none d0 d1 d2 p h1 h2 h3 h4 h5]
    exact ⟨hc0, hc15, trivial⟩

theorem C2_channel_masked_witness : fieldsInRange (jack_to_midi_event 0x95 60 100 2) :=
  (C2_channel_masked 0x95 60 100 2 (by decide)).2 (by decide) (by decide)

/-- Claim C3 counterexample: encoding a NoteOn with channel 32 produces the status
byte 0xB0, not 0x90 ||| (32 &&& 0x0F) = 0x90: the unmasked channel or corrupts the
high nibble. -/
theorem C3_counterexample :
    (midi_event_to_jack ⟨MIDI_EVENT_NOTEON, 0, 32, 0, 0⟩ 0 0 0).data0 = 0xb0
    ∧ (0xb0 : Nat) ≠ (0x90 ||| ((32 : Int).toNat &&& 0x0f)) := by
  decide

/-- Claim C3 amended: for every event whose channel lies in 0-15 the encoding has
nonzero length exactly for the representable variants, and then the final status
byte equals the variant base or-ed with the masked channel, with the high nibble
equal to the base. -/
theorem C3_status_byte (ev : MidiEvent) (d0 d1 d2 : Nat) (b : Nat)
    (hb : baseStatus ev.type = some b) (h0 : 0 ≤ ev.channel) (h15 : ev.channel ≤ 15) :
    (midi_event_to_jack ev d0 d1 d2).len ≠ 0
    ∧ (midi_event_to_jack ev d0 d1 d2).data0 = b ||| (ev.channel.toNat &&& 0x0f)
    ∧ (midi_event_to_jack ev d0 d1 d2).data0 &&& 0xf0 = b := by
  obtain ⟨t, p, c, x, y⟩ := ev
  simp only at h0 h15 hb ⊢
  obtain ⟨n, rfl⟩ := Int.eq_ofNat_of_zero_le h0
  have hn : n < 16 := by omega
  have hnn : ((n : Int)).toNat &&& 15 = n := by
    have h1 : ((n : Int)).toNat = n := by simp
    rw [h1, and15_eq_mod, Nat.mod_eq_of_lt hn]
  cases t with
  | MIDI_EVENT_NOTEON =>
    simp only [baseStatus, Option.some.injEq] at hb
    subst hb
    rw [encode_noteon]
    dsimp only
    rw [toByte_lor_nat 144 n (by norm_num) hn, hnn]
    exact ⟨by norm_num, rfl, (base_or_channel (by norm_num) (by decide) (by decide) hn).2.1⟩
  | MIDI_EVENT_NOTEOFF =>
    simp only [baseStatus, Option.some.injEq] at hb
    subst hb
    rw [encode_noteoff]
    dsimp only
    rw [toByte_lor_nat 128 n (by norm_num) hn, hnn]
    exact ⟨by norm_num, rfl, (base_or_channel (by norm_num) (by decide) (by decide) hn).2.1⟩
  | MIDI_EVENT_CTRL =>
    simp only [baseStatus, Option.some.injEq] at hb
    subst hb
    rw [encode_ctrl]
    dsimp only
    rw [toByte_lor_nat 176 n (by norm_num) hn, hnn]
    exact ⟨by norm_num, rfl, (base_or_channel (by norm_num) (by decide) (by decide) hn).2.1⟩
  | MIDI_EVENT_PITCHBEND =>
    simp only [baseStatus, Option.some.injEq] at hb
    subst hb
    rw [encode_pitchbend]
    dsimp only
    rw [toByte_lor_nat 224 n (by norm_num) hn, hnn]
    exact ⟨by norm_num, rfl, (base_or_channel (by norm_num) (by decide) (by decide) hn).2.1⟩
  | MIDI_EVENT_PROGRAM =>
    simp only [baseStatus, Option.some.injEq] at hb
    subst hb
    rw [encode_program]
    dsimp only
    rw [toByte_lor_nat 192 n (by norm_num) hn, hnn]
    exact ⟨by norm_num, rfl, (base_or_channel (by norm_num) (by decide) (by decide) hn).2.1⟩
  | MIDI_EVENT_NONE => simp [baseStatus] at hb

theorem C3_status_byte_witness :
    (midi_event_to_jack ⟨MIDI_EVENT_NOTEON, 0, 5, 60, 100⟩ 0 0 0).len ≠ 0
    ∧ (midi_event_to_jack ⟨MIDI_EVENT_NOTEON, 0, 5, 60, 100⟩ 0 0 0).data0
        = 0x90 ||| ((5 : Int).toNat &&& 0x0f)
    ∧ (midi_event_to_jack ⟨MIDI_EVENT_NOTEON, 0, 5, 60, 100⟩ 0 0 0).data0 &&& 0xf0 = 0x90 :=
  C3_status_byte ⟨MIDI_EVENT_NOTEON, 0, 5, 60, 100⟩ 0 0 0 0x90 rfl (by decide) (by decide)

/-- Claim C4: the pitch-bend codec maps endpoints and center exactly: encoding value
-8192 yields data bytes (0,0), value 0 yields (0,64), value 8191 yields (127,127);
decoding data bytes (0,0) yields -8192 and (127,127) yields 8191. -/
theorem C4_pitchbend_endpoints :
    ((midi_event_to_jack ⟨MIDI_EVENT_PITCHBEND, 0, 0, 0, -8192⟩ 0 0 0).data1 = 0
      ∧ (midi_event_to_jack ⟨MIDI_EVENT_PITCHBEND, 0, 0, 0, -8192⟩ 0 0 0).data2 = 0)
    ∧ ((midi_event_to_jack ⟨MIDI_EVENT_PITCHBEND, 0, 0, 0, 0⟩ 0 0 0).data1 = 0
      ∧ (midi_event_to_jack ⟨MIDI_EVENT_PITCHBEND, 0, 0, 0, 0⟩ 0 0 0).data2 = 64)
    ∧ ((midi_event_to_jack ⟨MIDI_EVENT_PITCHBEND, 0, 0, 0, 8191⟩ 0 0 0).data1 = 127
      ∧ (midi_event_to_jack ⟨MIDI_EVENT_PITCHBEND, 0, 0, 0, 8191⟩ 0 0 0).data2 = 127)
    ∧ (jack_to_midi_event 0xe0 0 0 0).data2 = -8192
    ∧ (jack_to_midi_event 0xe0 127 127 0).data2 = 8191 := by
  decide

/-- Claim C5: every status byte whose high nibble is none of 0x90 0x80 0xB0 0xE0
0xC0 decodes to an event of type None, and every event of type None encodes to
length 0 and causes no port buffer write in the process drain loop. -/
theorem C5_unrecognized_status :
    (∀ (d0 d1 d2 : Nat) (p : Int),
       d0 &&& 0xf0 ≠ 0x90 → d0 &&& 0xf0 ≠ 0x80 → d0 &&& 0xf0 ≠ 0xb0 →
       d0 &&& 0xf0 ≠ 0xe0 → d0 &&& 0xf0 ≠ 0xc0 →
       (jack_to_midi_event d0 d1 d2 p).type = MIDI_EVENT_NONE)
    ∧ (∀ (ev : MidiEvent) (d0 d1 d2 : Nat), ev.type = MIDI_EVENT_NONE →
       (midi_event_to_jack ev d0 d1 d2).len = 0 ∧ processWrite ev d0 d1 d2 = none) := by
  constructor
  · intro d0 d1 d2 p h1 h2 h3 h4 h5
    rw [decode_none d0 d1 d2 p h1 h2 h3 h4 h5]
  · intro ev d0 d1 d2 h
    obtain ⟨t, p, c, x, y⟩ := ev
    simp only at h
    subst h
    exact ⟨rfl, rfl⟩

theorem C5_unrecognized_status_witness :
    (jack_to_midi_event 0xa0 60 100 0).type = MIDI_EVENT_NONE
    ∧ (midi_event_to_jack ⟨MIDI_EVENT_NONE, 0, 0, 0, 0⟩ 7 8 9).len = 0
    ∧ processWrite ⟨MIDI_EVENT_NONE, 0, 0, 0, 0⟩ 7 8 9 = none :=
  ⟨C5_unrecognized_status.1 0xa0 60 100 0 (by decide) (by decide) (by decide)
     (by decide) (by decide),
   (C5_unrecognized_status.2 ⟨MIDI_EVENT_NONE, 0, 0, 0, 0⟩ 7 8 9 rfl).1,
   (C5_unrecognized_status.2 ⟨MIDI_EVENT_NONE, 0, 0, 0, 0⟩ 7 8 9 rfl).2⟩

/-- Claim C9: encode always copies the event port into the returned port and always
or-s the event channel into the first data byte, also in the length-0 case, where
the first byte becomes the or of the uninitialized buffer byte with the channel. -/
theorem C9_encode_effects (ev : MidiEvent) (d0 d1 d2 : Nat) :
    (midi_event_to_jack ev d0 d1 d2).port = ev.port
    ∧ (∀ b, baseStatus ev.type = some b →
        (midi_event_to_jack ev d0 d1 d2).data0 = toByte (Int.lor (b : Int) ev.channel))
    ∧ (baseStatus ev.type = none →
        (midi_event_to_jack ev d0 d1 d2).len = 0
        ∧ (midi_event_to_jack ev d0 d1 d2).data0 = toByte (Int.lor (d0 : Int) ev.channel)) := by
  obtain ⟨t, p, c, x, y⟩ := ev
  refine ⟨by cases t <;> rfl, ?_, ?_⟩
  · intro b hb
    cases t with
    | MIDI_EVENT_NOTEON =>
      simp only [baseStatus, Option.some.injEq] at hb
      subst hb
      rfl
    | MIDI_EVENT_NOTEOFF =>
      simp only [baseStatus, Option.some.injEq] at hb
      subst hb
      rfl
    | MIDI_EVENT_CTRL =>
      simp only [baseStatus, Option.some.injEq] at hb
      subst hb
      rfl
    | MIDI_EVENT_PITCHBEND =>
      simp only [baseStatus, Option.some.injEq] at hb
      subst hb
      rfl
    | MIDI_EVENT_PROGRAM =>
      simp only [baseStatus, Option.some.injEq] at hb
      subst hb
      rfl
    | MIDI_EVENT_NONE => simp [baseStatus] at hb
  · intro h
    cases t with
    | MIDI_EVENT_NONE => exact ⟨rfl, rfl⟩
    | MIDI_EVENT_NOTEON => simp [baseStatus] at h
    | MIDI_EVENT_NOTEOFF => simp [baseStatus] at h
    | MIDI_EVENT_CTRL => simp [baseStatus] at h
    | MIDI_EVENT_PITCHBEND => simp [baseStatus] at h
    | MIDI_EVENT_PROGRAM => simp [baseStatus] at h

theorem C9_encode_effects_witness :
    (midi_event_to_jack ⟨MIDI_EVENT_NONE, 7, 5, 0, 0⟩ 0x40 9 9).port = 7
    ∧ (midi_event_to_jack ⟨MIDI_EVENT_NONE, 7, 5, 0, 0⟩ 0x40 9 9).len = 0
    ∧ (midi_event_to_jack ⟨MIDI_EVENT_NONE, 7, 5, 0, 0⟩ 0x40 9 9).data0
        = toByte (Int.lor ((0x40 : Nat) : Int) 5) :=
  ⟨(C9_encode_effects ⟨MIDI_EVENT_NONE, 7, 5, 0, 0⟩ 0x40 9 9).1,
   ((C9_encode_effects ⟨MIDI_EVENT_NONE, 7, 5, 0, 0⟩ 0x40 9 9).2.2 rfl).1,
   ((C9_encode_effects ⟨MIDI_EVENT_NONE, 7, 5, 0, 0⟩ 0x40 9 9).2.2 rfl).2⟩

/-! Lemmas about the constructor port registration loops. -/

theorem registerPorts_ok_of (ok : Nat → Bool) (msg : String) (names : List String)
    (n : Nat) (h : ∀ i, i < names.length → ok (n + i) = true) :
    ∃ hs, registerPorts ok msg n names = Except.ok hs := by
  induction names generalizing n with
  | nil => exact ⟨[], rfl⟩
  | cons a rest ih =>
    have h0 : ok n = true := by
      have := h 0 (by simp)
      simpa using this
    have hrest : ∀ i, i < rest.length → ok (n + 1 + i) = true := by
      intro i hi
      have hx := h (i + 1) (by simpa using Nat.succ_lt_succ hi)
      have e : n + (i + 1) = n + 1 + i := by omega
      rw [e] at hx
      exact hx
    obtain ⟨hs, hrec⟩ := ih (n + 1) hrest
    exact ⟨(n + 1) :: hs, by simp [registerPorts, h0, hrec]⟩

theorem registerPorts_error_of (ok : Nat → Bool) (msg : String) (names : List String)
    (n i : Nat) (hi : i < names.length) (hf : ok (n + i) = false) :
    registerPorts ok msg n names = Except.error { msg := msg } := by
  induction names generalizing n i with
  | nil => simp at hi
  | cons a rest ih =>
    by_cases h0 : ok n = true
    · cases i with
      | zero =>
        rw [Nat.add_zero] at hf
        rw [h0] at hf
        cases hf
      | succ i2 =>
        have hi2 : i2 < rest.length := by simpa using hi
        have hf2 : ok (n + 1 + i2) = false := by
          have e : n + 1 + i2 = n + (i2 + 1) := by omega
          rw [e]
          exact hf
        have hrec := ih (n + 1) i2 hi2 hf2
        simp [registerPorts, h0, hrec]
    · have h0f : ok n = false := by simpa using h0
      simp [registerPorts, h0f]

/-- Claim C6 counterexample: when the client cannot be opened, construction throws
BackendError with message "can\x27t connect to jack server", which differs from the
claimed message "can\x27t connect to device server". -/
theorem C6_counterexample :
    BackendJack.construct ⟨false, fun _ => true, fun _ => true, true⟩ "mididings"
        ["in"] ["out"]
      = Except.error { msg := "can\x27t connect to jack server" }
    ∧ ("can\x27t connect to jack server" : String) ≠ "can\x27t connect to device server" := by
  constructor
  · rfl
  · decide

/-- Claim C6 amended: construction throws a BackendError exactly when the client
cannot be opened, some input or output port registration returns a null handle, or
activation fails; the messages are, in order of precedence, "can\x27t connect to
jack server", "error creating input port", "error creating output port" and
"can\x27t activate client". -/
theorem C6_construction_errors (env : JackEnv) (cn : String) (ins outs : List String) :
    ((∃ e, BackendJack.construct env cn ins outs = Except.error e) ↔
      (env.clientOpenOk = false
        ∨ (∃ i, i < ins.length ∧ env.inPortOk i = false)
        ∨ (∃ i, i < outs.length ∧ env.outPortOk i = false)
        ∨ env.activateOk = false))
    ∧ (env.clientOpenOk = false →
        BackendJack.construct env cn ins outs
          = Except.error { msg := "can\x27t connect to jack server" })
    ∧ (env.clientOpenOk = true → (∃ i, i < ins.length ∧ env.inPortOk i = false) →
        BackendJack.construct env cn ins outs
          = Except.error { msg := "error creating input port" })
    ∧ (env.clientOpenOk = true → (∀ i, i < ins.length → env.inPortOk i = true) →
        (∃ i, i < outs.length ∧ env.outPortOk i = false) →
        BackendJack.construct env cn ins outs
          = Except.error { msg := "error creating output port" })
    ∧ (env.clientOpenOk = true → (∀ i, i < ins.length → env.inPortOk i = true) →
        (∀ i, i < outs.length → env.outPortOk i = true) → env.activateOk = false →
        BackendJack.construct env cn ins outs
          = Except.error { msg := "can\x27t activate client" }) := by
  have hA : env.clientOpenOk = false →
      BackendJack.construct env cn ins outs
        = Except.error { msg := "can\x27t connect to jack server" } := by
    intro h
    simp [BackendJack.construct, h]
  have hB : env.clientOpenOk = true → (∃ i, i < ins.length ∧ env.inPortOk i = false) →
      BackendJack.construct env cn ins outs
        = Except.error { msg := "error creating input port" } := by
    intro ho hex
    obtain ⟨i, hi, hf⟩ := hex
    have hreg := registerPorts_error_of env.inPortOk "error creating input port" ins 0 i hi
      (by rw [Nat.zero_add]; exact hf)
    simp [BackendJack.construct, ho, hreg]
  have hC : env.clientOpenOk = true → (∀ i, i < ins.length → env.inPortOk i = true) →
      (∃ i, i < outs.length ∧ env.outPortOk i = false) →
      BackendJack.construct env cn ins outs
        = Except.error { msg := "error creating output port" } := by
    intro ho hin hex
    obtain ⟨i, hi, hf⟩ := hex
    obtain ⟨inp, hinp⟩ := registerPorts_ok_of env.inPortOk "error creating input port" ins 0
      (by intro j hj; rw [Nat.zero_add]; exact hin j hj)
    have hreg := registerPorts_error_of env.outPortOk "error creating output port" outs 0 i hi
      (by rw [Nat.zero_add]; exact hf)
    simp [BackendJack.construct, ho, hinp, hreg]
  have hD : env.clientOpenOk = true → (∀ i, i < ins.length → env.inPortOk i = true) →
      (∀ i, i < outs.length → env.outPortOk i = true) → env.activateOk = false →
      BackendJack.construct env cn ins outs
        = Except.error { msg := "can\x27t activate client" } := by
    intro ho hin hout hact
    obtain ⟨inp, hinp⟩ := registerPorts_ok_of env.inPortOk "error creating input port" ins 0
      (by intro j hj; rw [Nat.zero_add]; exact hin j hj)
    obtain ⟨outp, houtp⟩ := registerPorts_ok_of env.outPortOk "error creating output port" outs 0
      (by intro j hj; rw [Nat.zero_add]; exact hout j hj)
    simp [BackendJack.construct, ho, hinp, houtp, hact]
  have hE : env.clientOpenOk = true → (∀ i, i < ins.length → env.inPortOk i = true) →
      (∀ i, i < outs.length → env.outPortOk i = true) → env.activateOk = true →
      ∃ s, BackendJack.construct env cn ins outs = Except.ok s := by
    intro ho hin hout hact
    obtain ⟨inp, hinp⟩ := registerPorts_ok_of env.inPortOk "error creating input port" ins 0
      (by intro j hj; rw [Nat.zero_add]; exact hin j hj)
    obtain ⟨outp, houtp⟩ := registerPorts_ok_of env.outPortOk "error creating output port" outs 0
      (by intro j hj; rw [Nat.zero_add]; exact hout j hj)
    refine ⟨{ _client := 1, _in_ports := inp, _out_ports := outp,
              _in_rb := { capacity := Config.MAX_JACK_EVENTS, items := [] },
              _out_rb := { capacity := Config.MAX_JACK_EVENTS, items := [] },
              _cond := 0 }, ?_⟩
    simp [BackendJack.construct, ho, hinp, houtp, hact]
  refine ⟨⟨?_, ?_⟩, hA, hB, hC, hD⟩
  · rintro ⟨e, he⟩
    by_contra hcon
    push_neg at hcon
    obtain ⟨h1, h2, h3, h4⟩ := hcon
    have ho : env.clientOpenOk = true := by
      cases hcl : env.clientOpenOk
      · exact absurd hcl h1
      · rfl
    have hin : ∀ i, i < ins.length → env.inPortOk i = true := by
      intro i hi
      cases hx : env.inPortOk i
      · exact absurd hx (h2 i hi)
      · rfl
    have hout : ∀ i, i < outs.length → env.outPortOk i = true := by
      intro i hi
      cases hx : env.outPortOk i
      · exact absurd hx (h3 i hi)
      · rfl
    have hact : env.activateOk = true := by
      cases ha : env.activateOk
      · exact absurd ha h4
      · rfl
    obtain ⟨s, hs⟩ := hE ho hin hout hact
    rw [hs] at he
    cases he
  · intro h
    by_cases ho : env.clientOpenOk = true
    · rcases h with h | h | h | h
      · rw [ho] at h
        cases h
      · exact ⟨_, hB ho h⟩
      · by_cases hin : ∀ i, i < ins.length → env.inPortOk i = true
        · exact ⟨_, hC ho hin h⟩
        · push_neg at hin
          obtain ⟨i, hi, hf⟩ := hin
          exact ⟨_, hB ho ⟨i, hi, by simpa using hf⟩⟩
      · by_cases hin : ∀ i, i < ins.length → env.inPortOk i = true
        · by_cases hout : ∀ i, i < outs.length → env.outPortOk i = true
          · exact ⟨_, hD ho hin hout h⟩
          · push_neg at hout
            obtain ⟨i, hi, hf⟩ := hout
            exact ⟨_, hC ho hin ⟨i, hi, by simpa using hf⟩⟩
        · push_neg at hin
          obtain ⟨i, hi, hf⟩ := hin
          exact ⟨_, hB ho ⟨i, hi, by simpa using hf⟩⟩
    · have hof : env.clientOpenOk = false := by
        cases hcl : env.clientOpenOk
        · rfl
        · exact absurd hcl ho
      exact ⟨_, hA hof⟩

theorem C6_construction_errors_witness :
    BackendJack.construct ⟨true, fun _ => true, fun _ => true, false⟩ "mididings"
        ["in"] ["out"]
      = Except.error { msg := "can\x27t activate client" } :=
  (C6_construction_errors ⟨true, fun _ => true, fun _ => true, false⟩ "mididings"
      ["in"] ["out"]).2.2.2.2 rfl
    (by intro i hi; rfl) (by intro i hi; rfl) rfl

/-- Claim C7: input_event yields nothing while the inbound queue is empty (the call
stays blocked on the wake signal), and whenever it yields a result it has dequeued
exactly the oldest event of the inbound queue, returned it, and left every other
component of the bridge state unchanged. -/
theorem C7_input_event_blocks_and_dequeues (s : BackendJack) :
    (s._in_rb.items = [] → s.input_event = none)
    ∧ (∀ ev s', s.input_event = some (ev, s') →
        s._in_rb.items = ev :: s'._in_rb.items
        ∧ s'._in_rb.capacity = s._in_rb.capacity
        ∧ s'._out_rb = s._out_rb ∧ s'._in_ports = s._in_ports
        ∧ s'._out_ports = s._out_ports ∧ s'._client = s._client
        ∧ s'._cond = s._cond) := by
  obtain ⟨cl, ip, op, ⟨cap, items⟩, orb, cond⟩ := s
  constructor
  · intro h
    dsimp only at h
    subst h
    rfl
  · intro ev s' h
    cases items with
    | nil =>
      simp [BackendJack.input_event, BoundedEventQueue.read] at h
    | cons e rest =>
      simp only [BackendJack.input_event, BoundedEventQueue.read, Option.some.injEq,
        Prod.mk.injEq] at h
      obtain ⟨he, hs⟩ := h
      subst he
      subst hs
      exact ⟨rfl, rfl, rfl, rfl, rfl, rfl, rfl⟩

theorem C7_input_event_blocks_and_dequeues_witness :
    (({ _client := 1, _in_ports := [1], _out_ports := [2],
        _in_rb := { capacity := 128, items := [] },
        _out_rb := { capacity := 128, items := [] }, _cond := 0 } : BackendJack).input_event
      = none)
    ∧ (({ _client := 1, _in_ports := [1], _out_ports := [2],
          _in_rb := { capacity := 128, items := [⟨MIDI_EVENT_NOTEON, 0, 0, 60, 100⟩] },
          _out_rb := { capacity := 128, items := [] }, _cond := 0 } : BackendJack)._in_rb.items
        = ⟨MIDI_EVENT_NOTEON, 0, 0, 60, 100⟩ ::
          ({ _client := 1, _in_ports := [1], _out_ports := [2],
             _in_rb := { capacity := 128, items := [] },
             _out_rb := { capacity := 128, items := [] }, _cond := 0 } : BackendJack)._in_rb.items) :=
  ⟨(C7_input_event_blocks_and_dequeues _).1 rfl,
   ((C7_input_event_blocks_and_dequeues
      { _client := 1, _in_ports := [1], _out_ports := [2],
        _in_rb := { capacity := 128, items := [⟨MIDI_EVENT_NOTEON, 0, 0, 60, 100⟩] },
        _out_rb := { capacity := 128, items := [] }, _cond := 0 }).2
     ⟨MIDI_EVENT_NOTEON, 0, 0, 60, 100⟩
     { _client := 1, _in_ports := [1], _out_ports := [2],
       _in_rb := { capacity := 128, items := [] },
       _out_rb := { capacity := 128, items := [] }, _cond := 0 } rfl).1⟩

/-- Claim C8: flush_output is a no-op: both queues, both port arrays, the client
handle and the wake signal state are unchanged. -/
theorem C8_flush_output_noop (s : BackendJack) :
    s.flush_output._in_rb = s._in_rb ∧ s.flush_output._out_rb = s._out_rb
    ∧ s.flush_output._in_ports = s._in_ports ∧ s.flush_output._out_ports = s._out_ports
    ∧ s.flush_output._client = s._client ∧ s.flush_output._cond = s._cond :=
  ⟨rfl, rfl, rfl, rfl, rfl, rfl⟩

/-- Claim C10: drop_input resets only the inbound queue (its items are discarded,
its capacity kept); the outbound queue, both port arrays, the client handle and the
wake signal state are unchanged. -/
theorem C10_drop_input_frame (s : BackendJack) :
    s.drop_input._in_rb.items = [] ∧ s.drop_input._in_rb.capacity = s._in_rb.capacity
    ∧ s.drop_input._out_rb = s._out_rb ∧ s.drop_input._in_ports = s._in_ports
    ∧ s.drop_input._out_ports = s._out_ports ∧ s.drop_input._client = s._client
    ∧ s.drop_input._cond = s._cond :=
  ⟨rfl, rfl, rfl, rfl, rfl, rfl, rfl⟩

end Mididings
